import Mathlib

/-!
Verification of the PTY terminal session manager in
`blueprints/terminal.py` (the session registry, the connect / input /
resize handlers, the output pump and `cleanup_session`).

The Python module is shallowly embedded: the process-wide dictionary
`terminal_sessions` and the OS resources (open descriptors, running
child processes, per-descriptor window sizes) become an explicit
`SysState`; every OS call that can fail is driven by an explicit
boolean outcome so that each `try/except` branch of the source is a
`match` here; socket emissions and OS-level calls are logged so that
ordering and at-most-once properties can be stated.
-/

namespace Terminal

/-- Python exception classes relevant to the module.  `structError` is
`struct.error` (raised by `struct.pack` on out-of-range values), which is
*not* a subclass of `OSError`/`ValueError` and hence is not caught by the
resize handler's `except (OSError, IOError, ValueError)`. -/
inductive PyErr where
  | osError
  | valueError
  | structError
  | timeoutExpired
  deriving Repr, DecidableEq

/-- One entry of the `terminal_sessions` dictionary: the dict literal
stored by `handle_terminal_connect` (`master_fd`, `slave_fd`, `pid`,
`user`). -/
structure Session where
  master_fd : Nat
  slave_fd : Nat
  pid : Nat
  user : String
  deriving Repr, DecidableEq

/-- `d.get(k)` on a Python dict, embedded as an association list. -/
def dictGet {α β : Type} [DecidableEq α] (k : α) : List (α × β) → Option β
  | [] => none
  | p :: rest => if p.1 = k then some p.2 else dictGet k rest

/-- Removal of a key from a Python dict (the mutation performed by
`d.pop(k, None)` when the key is present). -/
def dictRemove {α β : Type} [DecidableEq α] (k : α) : List (α × β) → List (α × β)
  | [] => []
  | p :: rest => if p.1 = k then dictRemove k rest else p :: dictRemove k rest

/-- `d[k] = v` on a Python dict: overwrites any existing entry. -/
def dictSet {α β : Type} [DecidableEq α] (k : α) (v : β) (d : List (α × β)) :
    List (α × β) :=
  (k, v) :: dictRemove k d

/-- The process-wide state the module touches: the `terminal_sessions`
registry, the set of PTY descriptors currently open in the server
process, the set of live child shell processes, the window size last
applied to each descriptor by `TIOCSWINSZ`, the log of bytes written to
descriptors by the input handler, and counters supplying fresh
descriptors / pids on allocation. -/
structure SysState where
  terminal_sessions : List (String × Session)
  openFds : List Nat
  procs : List Nat
  winsize : List (Nat × (Int × Int))
  writeLog : List (Nat × String)
  nextFd : Nat
  nextPid : Nat
  deriving Repr, DecidableEq

/-- Socket emissions performed by the module: `emit('terminal_error',
{'message': m})` (optionally with a `room`), `emit('terminal_ready',
{'session_id': sid})`, and `socketio.emit('terminal_output', {'data': d},
room=sid)`. -/
inductive Emit where
  | terminalError (message : String) (room : Option String)
  | terminalReady (session_id : String)
  | terminalOutput (data : String) (room : String)
  deriving Repr, DecidableEq

/-- OS-level / registry-level calls made by `cleanup_session`, logged in
the order the source performs them. -/
inductive Action where
  | popRegistry (sid : String)
  | closeFd (fd : Nat)
  | terminate (pid : Nat)
  | wait (pid : Nat) (timeout : Nat)
  | kill (pid : Nat)
  deriving Repr, DecidableEq

/-- `set_winsize(fd, row, col)`: no-op when PTY is unsupported; packs
`struct.pack("HHHH", row, col, 0, 0)` — this raises `struct.error` when a
value does not fit an unsigned 16-bit field — then issues the
`TIOCSWINSZ` ioctl, which may raise `OSError`; on success the kernel
records the new window size for the descriptor. -/
def set_winsize (ptySupported ioctlFail : Bool) (fd : Nat) (row col : Int)
    (st : SysState) : Except PyErr SysState :=
  if ¬ ptySupported then .ok st
  else if row < 0 ∨ 65536 ≤ row ∨ col < 0 ∨ 65536 ≤ col then .error .structError
  else if ioctlFail then .error .osError
  else .ok { st with winsize := dictSet fd (row, col) st.winsize }

/-- Outcome flags for the OS calls made during one
`handle_terminal_connect` attempt, plus `str(e)` of the exception raised
(used in the `f'Xatolik: {str(e)}'` message). -/
structure ConnectEnv where
  authenticated : Bool
  ptySupported : Bool
  ptyFail : Bool
  spawnFail : Bool
  ioctlFail : Bool
  errText : String
  deriving Repr, DecidableEq

/-- An initial size a client might place in the connect payload.  The
source's `handle_terminal_connect(data=None)` never reads `data`. -/
structure ConnectPayload where
  rows : Int
  cols : Int
  deriving Repr, DecidableEq

/-- `handle_terminal_connect`: authentication gate, platform gate, then
inside one `try`: `pty.openpty()` (two fresh descriptors),
`subprocess.Popen([shell, '-l'], ...)` (fresh child process; on failure
the exception propagates to the handler's `except` with the descriptors
still open), `terminal_sessions[session_id] = {...}` (plain dict
assignment — overwrites), `set_winsize(master_fd, 24, 80)`, then
`emit('terminal_ready', ...)`.  Any exception reaches
`except Exception as e` which emits `f'Xatolik: {str(e)}'` and performs
no cleanup.  The `data` argument is never read. -/
def handle_terminal_connect (env : ConnectEnv) (sid user : String)
    (_data : Option ConnectPayload) (st : SysState) : SysState × List Emit :=
  if ¬ env.authenticated then
    (st, [.terminalError "Avtorizatsiya talab qilinadi" none])
  else if ¬ env.ptySupported then
    (st, [.terminalError
      "Terminal faqat Linux/Unix tizimlarida ishlaydi. Windows qo\x27llab-quvvatlanmaydi." none])
  else if env.ptyFail then
    (st, [.terminalError ("Xatolik: " ++ env.errText) none])
  else
    let master_fd := st.nextFd
    let slave_fd := st.nextFd + 1
    let st1 := { st with openFds := slave_fd :: master_fd :: st.openFds,
                         nextFd := st.nextFd + 2 }
    if env.spawnFail then
      (st1, [.terminalError ("Xatolik: " ++ env.errText) none])
    else
      let pid := st1.nextPid
      let st2 := { st1 with procs := pid :: st1.procs, nextPid := pid + 1 }
      let sess : Session := ⟨master_fd, slave_fd, pid, user⟩
      let st3 := { st2 with
        terminal_sessions := dictSet sid sess st2.terminal_sessions }
      match set_winsize env.ptySupported env.ioctlFail master_fd 24 80 st3 with
      | .error _ => (st3, [.terminalError ("Xatolik: " ++ env.errText) none])
      | .ok st4 => (st4, [.terminalReady sid])

/-- The `{'data': ...}` payload of an input event; the field may be
absent (`data.get('data', '')`). -/
structure InputPayload where
  data : Option String
  deriving Repr, DecidableEq

/-- `os.write(fd, bytes)`: appends to the write log on success, raises
`OSError` on failure. -/
def osWrite (writeFail : Bool) (fd : Nat) (s : String) (st : SysState) :
    Except PyErr SysState :=
  if writeFail then .error .osError
  else .ok { st with writeLog := st.writeLog ++ [(fd, s)] }

/-- `handle_terminal_input`: looks the session up with
`terminal_sessions.get(session_id)`, returns when absent; otherwise
writes the (non-empty) payload to `master_fd` inside
`try ... except (OSError, IOError): pass`.  The second component is the
exception, if any, escaping the handler. -/
def handle_terminal_input (writeFail : Bool) (sid : String)
    (payload : InputPayload) (st : SysState) : SysState × Option PyErr :=
  match dictGet sid st.terminal_sessions with
  | none => (st, none)
  | some session =>
    let input_data := payload.data.getD ""
    if input_data ≠ "" then
      match osWrite writeFail session.master_fd input_data st with
      | .ok st1 => (st1, none)
      | .error _ => (st, none)
    else (st, none)

/-- A value found in a resize payload field: a JSON number (Python int)
or a string; `int(...)` parses the latter and raises `ValueError` on
garbage. -/
inductive PyVal where
  | int (n : Int)
  | str (s : String)
  deriving Repr, DecidableEq

/-- Python `int(v)` for the payload values modelled here. -/
def pyInt : PyVal → Except PyErr Int
  | .int n => .ok n
  | .str s => match s.toInt? with
    | some n => .ok n
    | none => .error .valueError

/-- The `{'rows': ..., 'cols': ...}` payload of a resize event; either
field may be absent (`data.get('rows', 24)` / `data.get('cols', 80)`). -/
structure ResizePayload where
  rows : Option PyVal
  cols : Option PyVal
  deriving Repr, DecidableEq

/-- The exception classes named in the resize handler's
`except (OSError, IOError, ValueError)` clause (`IOError` is an alias of
`OSError` in Python 3). -/
def caughtByResize : PyErr → Bool
  | .osError => true
  | .valueError => true
  | .structError => false
  | .timeoutExpired => false

/-- `handle_terminal_resize`: no-op when the session id is absent;
otherwise `rows = int(data.get('rows', 24))`, `cols =
int(data.get('cols', 80))`, `set_winsize(master_fd, rows, cols)` inside
`try ... except (OSError, IOError, ValueError): pass`.  `struct.error`
raised by `set_winsize` is not in that clause and escapes (second
component). -/
def handle_terminal_resize (ptySupported ioctlFail : Bool) (sid : String)
    (data : ResizePayload) (st : SysState) : SysState × Option PyErr :=
  match dictGet sid st.terminal_sessions with
  | none => (st, none)
  | some session =>
    match pyInt (data.rows.getD (.int 24)) with
    | .error e => if caughtByResize e then (st, none) else (st, some e)
    | .ok rows =>
      match pyInt (data.cols.getD (.int 80)) with
      | .error e => if caughtByResize e then (st, none) else (st, some e)
      | .ok cols =>
        match set_winsize ptySupported ioctlFail session.master_fd rows cols st with
        | .ok st1 => (st1, none)
        | .error e => if caughtByResize e then (st, none) else (st, some e)

/-- Outcome flags for the OS calls made during one `cleanup_session`
run: `os.close(master_fd)`, `os.close(slave_fd)`, the
`terminate()`/`wait(timeout=2)` pair (failure means the call raised or
the grace period expired), and `kill()`. -/
structure CleanupEnv where
  closeMasterFail : Bool
  closeSlaveFail : Bool
  terminateFail : Bool
  killFail : Bool
  deriving Repr, DecidableEq

/-- `os.close(fd)`: removes the descriptor from the open set on success,
raises `OSError` on failure (the descriptor then stays open in the
model's pessimistic reading). -/
def osClose (closeFail : Bool) (fd : Nat) (st : SysState) :
    Except PyErr SysState :=
  if closeFail then .error .osError
  else .ok { st with openFds := st.openFds.erase fd }

/-- The `timeout=2` passed to `session['pid'].wait(timeout=2)`. -/
def WAIT_TIMEOUT : Nat := 2

/-- `cleanup_session(session_id)`: `terminal_sessions.pop(session_id,
None)` first; when an entry was present, close `master_fd` then
`slave_fd`, each inside `try ... except Exception: pass`; then
`terminate()` + `wait(timeout=2)` inside a `try` whose `except` runs
`kill()` inside its own `try ... except Exception: pass`; the whole body
sits in one more `try ... except Exception: pass`.  The result carries
the log of calls made, in source order; the `Except` layer records any
exception escaping to the caller. -/
def cleanup_session (env : CleanupEnv) (sid : String) (st : SysState) :
    Except PyErr (SysState × List Action) :=
  match dictGet sid st.terminal_sessions with
  | none => .ok (st, [.popRegistry sid])
  | some session =>
    let st1 := { st with
      terminal_sessions := dictRemove sid st.terminal_sessions }
    let st2 := match osClose env.closeMasterFail session.master_fd st1 with
      | .ok s => s
      | .error _ => st1
    let st3 := match osClose env.closeSlaveFail session.slave_fd st2 with
      | .ok s => s
      | .error _ => st2
    if env.terminateFail then
      if env.killFail then
        .ok (st3, [.popRegistry sid, .closeFd session.master_fd,
          .closeFd session.slave_fd, .terminate session.pid, .kill session.pid])
      else
        .ok ({ st3 with procs := st3.procs.erase session.pid },
          [.popRegistry sid, .closeFd session.master_fd,
           .closeFd session.slave_fd, .terminate session.pid, .kill session.pid])
    else
      .ok ({ st3 with procs := st3.procs.erase session.pid },
        [.popRegistry sid, .closeFd session.master_fd,
         .closeFd session.slave_fd, .terminate session.pid,
         .wait session.pid WAIT_TIMEOUT])

/-- What one poll of the pump's `select`/`os.read` produced: nothing
ready within the 100ms timeout, a non-empty chunk, a zero-length read
(EOF), or an `OSError`/`IOError` from the read. -/
inductive ReadEvent where
  | noData
  | chunk (data : String)
  | eof
  | readErr
  deriving Repr, DecidableEq

/-- One iteration of `read_output`'s `while session_id in
terminal_sessions` loop: the returned flag is whether the loop
continues; a non-empty read emits `terminal_output` to the session's
room; EOF and read errors `break`. -/
def read_output_step (ev : ReadEvent) (sid : String) (st : SysState) :
    SysState × List Emit × Bool :=
  if (dictGet sid st.terminal_sessions).isNone then (st, [], false)
  else match ev with
  | .noData => (st, [], true)
  | .chunk d => (st, [.terminalOutput d sid], true)
  | .eof => (st, [], false)
  | .readErr => (st, [], false)

/-- The code after `read_output`'s loop: `if session_id in
terminal_sessions: cleanup_session(session_id); socketio.emit(
'terminal_error', {'message': 'Terminal sessiyasi tugadi'},
room=session_id)`.  Returns the cleanup's call log alongside the
emissions; if `cleanup_session` raised, the background task would die
before emitting (dead branch — `cleanup_session` never raises). -/
def read_output_finish (env : CleanupEnv) (sid : String) (st : SysState) :
    SysState × List Action × List Emit :=
  if (dictGet sid st.terminal_sessions).isSome then
    match cleanup_session env sid st with
    | .ok (st1, tr) =>
      (st1, tr, [.terminalError "Terminal sessiyasi tugadi" (some sid)])
    | .error _ => (st, [], [])
  else (st, [], [])

/-! Helper lemmas about the dictionary embedding. -/

theorem dictGet_dictRemove_self {α β : Type} [DecidableEq α] (k : α)
    (d : List (α × β)) : dictGet k (dictRemove k d) = none := by
  induction d with
  | nil => rfl
  | cons p rest ih =>
    by_cases h : p.1 = k
    · simpa [dictRemove, h] using ih
    · simp [dictRemove, dictGet, h, ih]

theorem dictGet_dictSet_self {α β : Type} [DecidableEq α] (k : α) (v : β)
    (d : List (α × β)) : dictGet k (dictSet k v d) = some v := by
  simp [dictSet, dictGet]

/-! Concrete states used by counterexamples and witnesses. -/

/-- A registered session on descriptors 3 (control) and 4 (subordinate)
with child pid 10. -/
def sampleSession : Session := ⟨3, 4, 10, "u"⟩

/-- A state in which `sampleSession` is registered under id `"s"`. -/
def sampleState : SysState :=
  ⟨[("s", sampleSession)], [3, 4], [10], [], [], 20, 100⟩

/-- A state with no sessions, next free descriptor 5, next pid 100. -/
def emptyState : SysState := ⟨[], [], [], [], [], 5, 100⟩

/-- C1: when the shell spawn fails after `pty.openpty()` has allocated
descriptors 5 and 6, the connect handler reports the error with both
descriptors still open — it closes nothing (and while no registry entry
is left behind, the PTY descriptor pair is leaked, contradicting the
release-before-reporting requirement). -/
theorem connect_spawn_failure_leaks_pty_fds :
    handle_terminal_connect ⟨true, true, false, true, false, "FileNotFoundError"⟩
      "s" "u" none emptyState
      = ({ emptyState with openFds := [6, 5], nextFd := 7 },
         [.terminalError "Xatolik: FileNotFoundError" none]) ∧
    5 ∈ (handle_terminal_connect ⟨true, true, false, true, false, "FileNotFoundError"⟩
      "s" "u" none emptyState).1.openFds ∧
    6 ∈ (handle_terminal_connect ⟨true, true, false, true, false, "FileNotFoundError"⟩
      "s" "u" none emptyState).1.openFds ∧
    dictGet "s" (handle_terminal_connect ⟨true, true, false, true, false, "FileNotFoundError"⟩
      "s" "u" none emptyState).1.terminal_sessions = none := by
  refine ⟨rfl, ?_, ?_, rfl⟩ <;> decide

/-- C2: the resize handler performs no positivity validation: a resize
to `rows = 0` on a live session is silently applied to the PTY as the
window size, and a resize to `rows = -1` raises `struct.error`, which is
absent from the handler's `except (OSError, IOError, ValueError)` clause
and escapes the handler. -/
theorem resize_nonpositive_not_validated :
    handle_terminal_resize true false "s" ⟨some (.int 0), some (.int 80)⟩ sampleState
      = ({ sampleState with winsize := [(3, (0, 80))] }, none) ∧
    handle_terminal_resize true false "s" ⟨some (.int (-1)), some (.int 80)⟩ sampleState
      = (sampleState, some .structError) := by
  exact ⟨rfl, rfl⟩

/-- C3 counterexample: registering a connect under an id already present
in the registry does not fail with any `DuplicateSession` error — the
handler emits `terminal_ready` and the dict assignment overwrites the
existing entry, so the previously registered session (descriptors 3/4,
pid 10) is no longer reachable from the registry. -/
theorem duplicate_connect_overwrites_existing :
    (handle_terminal_connect ⟨true, true, false, false, false, ""⟩
      "s" "u2" none sampleState).2 = [.terminalReady "s"] ∧
    dictGet "s" (handle_terminal_connect ⟨true, true, false, false, false, ""⟩
      "s" "u2" none sampleState).1.terminal_sessions
      = some ⟨20, 21, 100, "u2"⟩ ∧
    (some (⟨20, 21, 100, "u2"⟩ : Session) ≠ some sampleSession) := by
  exact ⟨rfl, rfl, by decide⟩

/-- C3 amended: a connect whose id is already registered succeeds and
silently overwrites the existing entry (no `DuplicateSession` failure);
the overwritten session's descriptors stay open and its process stays
running, but orphaned — no longer reachable through the registry. -/
theorem duplicate_connect_overwrite_semantics
    (env : ConnectEnv) (sid user : String) (data : Option ConnectPayload)
    (st : SysState) (s_old : Session)
    (hauth : env.authenticated = true) (hpty : env.ptySupported = true)
    (hp : env.ptyFail = false) (hs : env.spawnFail = false)
    (hio : env.ioctlFail = false)
    (_hdup : dictGet sid st.terminal_sessions = some s_old) :
    (handle_terminal_connect env sid user data st).2 = [.terminalReady sid] ∧
    dictGet sid (handle_terminal_connect env sid user data st).1.terminal_sessions
      = some ⟨st.nextFd, st.nextFd + 1, st.nextPid, user⟩ ∧
    (∀ fd, fd ∈ st.openFds → fd ∈ (handle_terminal_connect env sid user data st).1.openFds) ∧
    (∀ p, p ∈ st.procs → p ∈ (handle_terminal_connect env sid user data st).1.procs) := by
  simp [handle_terminal_connect, set_winsize, hauth, hpty, hp, hs, hio,
    dictGet_dictSet_self]
  exact ⟨fun fd hfd => Or.inr (Or.inr hfd), fun p hp => Or.inr hp⟩

/-- C3 witness: the amended overwrite semantics evaluated on
`sampleState`, whose registry already holds `"s"`. -/
theorem duplicate_connect_overwrite_semantics_witness :
    (handle_terminal_connect ⟨true, true, false, false, false, ""⟩
      "s" "u2" none sampleState).2 = [.terminalReady "s"] ∧
    dictGet "s" (handle_terminal_connect ⟨true, true, false, false, false, ""⟩
      "s" "u2" none sampleState).1.terminal_sessions
      = some ⟨20, 21, 100, "u2"⟩ := by
  have h := duplicate_connect_overwrite_semantics
    ⟨true, true, false, false, false, ""⟩ "s" "u2" none sampleState
    sampleSession rfl rfl rfl rfl rfl rfl
  exact ⟨h.1, h.2.1⟩

/-- C4 counterexample: a connect whose payload requests a 50×100 initial
size still gets the hard-coded 24 rows × 80 columns — the handler's
`data` argument is never read, so the caller-specified size is not
applied. -/
theorem connect_ignores_requested_size :
    dictGet 5 (handle_terminal_connect ⟨true, true, false, false, false, ""⟩
      "s" "u" (some ⟨50, 100⟩) emptyState).1.winsize
      = some ((24 : Int), (80 : Int)) ∧
    (handle_terminal_connect ⟨true, true, false, false, false, ""⟩
      "s" "u" (some ⟨50, 100⟩) emptyState).2 = [.terminalReady "s"] ∧
    (((24 : Int), (80 : Int)) ≠ ((50 : Int), (100 : Int))) := by
  exact ⟨rfl, rfl, by decide⟩

/-- C4 amended: every successful connect sets the initial window size of
the new control descriptor to 24 rows × 80 columns, whatever the connect
payload carries. -/
theorem connect_initial_size_always_default
    (env : ConnectEnv) (sid user : String) (data : Option ConnectPayload)
    (st : SysState)
    (hauth : env.authenticated = true) (hpty : env.ptySupported = true)
    (hp : env.ptyFail = false) (hs : env.spawnFail = false)
    (hio : env.ioctlFail = false) :
    dictGet st.nextFd (handle_terminal_connect env sid user data st).1.winsize
      = some ((24 : Int), (80 : Int)) ∧
    (handle_terminal_connect env sid user data st).2 = [.terminalReady sid] := by
  simp [handle_terminal_connect, set_winsize, hauth, hpty, hp, hs, hio,
    dictGet_dictSet_self]

/-- C4 witness: a successful connect with an empty payload on the empty
state sets descriptor 5's size to 24×80. -/
theorem connect_initial_size_always_default_witness :
    dictGet 5 (handle_terminal_connect ⟨true, true, false, false, false, ""⟩
      "t" "u" none emptyState).1.winsize = some ((24 : Int), (80 : Int)) := by
  exact (connect_initial_size_always_default
    ⟨true, true, false, false, false, ""⟩ "t" "u" none emptyState
    rfl rfl rfl rfl rfl).1

/-- Closed form of the state `cleanup_session` leaves behind when the
id was registered as `s` (proven equal to the function's result in
`cleanup_session_eq`): the registry entry is gone; each descriptor is
closed unless its `os.close` failed; the child is reaped unless both the
terminate/wait pair and the fallback kill failed. -/
def cleanupStateAfter (env : CleanupEnv) (sid : String) (s : Session)
    (st : SysState) : SysState :=
  let fds1 := if env.closeMasterFail then st.openFds
              else st.openFds.erase s.master_fd
  let fds2 := if env.closeSlaveFail then fds1 else fds1.erase s.slave_fd
  let procs1 := if env.terminateFail ∧ env.killFail then st.procs
                else st.procs.erase s.pid
  { st with terminal_sessions := dictRemove sid st.terminal_sessions,
            openFds := fds2, procs := procs1 }

/-- The calls `cleanup_session` makes, in order, when the id was
registered as `s`. -/
def cleanupTrace (env : CleanupEnv) (sid : String) (s : Session) :
    List Action :=
  [.popRegistry sid, .closeFd s.master_fd, .closeFd s.slave_fd,
   .terminate s.pid,
   if env.terminateFail then .kill s.pid else .wait s.pid WAIT_TIMEOUT]

theorem cleanup_session_eq (env : CleanupEnv) (sid : String) (st : SysState)
    (s : Session) (hreg : dictGet sid st.terminal_sessions = some s) :
    cleanup_session env sid st
      = .ok (cleanupStateAfter env sid s st, cleanupTrace env sid s) := by
  rcases env with ⟨cm, cs, tf, kf⟩
  cases cm <;> cases cs <;> cases tf <;> cases kf <;>
    simp [cleanup_session, osClose, cleanupStateAfter, cleanupTrace, hreg]

theorem cleanup_session_absent (env : CleanupEnv) (sid : String)
    (st : SysState) (hreg : dictGet sid st.terminal_sessions = none) :
    cleanup_session env sid st = .ok (st, [.popRegistry sid]) := by
  simp [cleanup_session, hreg]

theorem cleanupStateAfter_unregistered (env : CleanupEnv) (sid : String)
    (s : Session) (st : SysState) :
    dictGet sid (cleanupStateAfter env sid s st).terminal_sessions = none := by
  simp [cleanupStateAfter, dictGet_dictRemove_self]

/-- C6: tearing down a registered session never raises (the result is
`.ok` for every combination of OS-call failures), performs its calls in
source order — registry removal first, then closing the control and the
subordinate descriptor, then graceful termination, then the
`wait(timeout=2)` (a grace period within 2–5 seconds) or, when
termination/wait failed, the forced kill — with no failure aborting the
later steps, and leaves no registry entry behind. -/
theorem cleanup_order_best_effort_no_raise (env : CleanupEnv) (sid : String)
    (st : SysState) (s : Session)
    (hreg : dictGet sid st.terminal_sessions = some s) :
    cleanup_session env sid st = .ok (cleanupStateAfter env sid s st,
      [.popRegistry sid, .closeFd s.master_fd, .closeFd s.slave_fd,
       .terminate s.pid,
       if env.terminateFail then .kill s.pid else .wait s.pid WAIT_TIMEOUT]) ∧
    dictGet sid (cleanupStateAfter env sid s st).terminal_sessions = none ∧
    2 ≤ WAIT_TIMEOUT ∧ WAIT_TIMEOUT ≤ 5 := by
  exact ⟨cleanup_session_eq env sid st s hreg,
    cleanupStateAfter_unregistered env sid s st, by decide, by decide⟩

/-- C6 witness: teardown of the sample session with the control-side
close failing and the terminate/wait pair failing still runs every later
step (subordinate close, kill) and returns without an exception. -/
theorem cleanup_order_best_effort_no_raise_witness :
    cleanup_session ⟨true, false, true, false⟩ "s" sampleState
      = .ok (⟨[], [3], [], [], [], 20, 100⟩,
        [.popRegistry "s", .closeFd 3, .closeFd 4, .terminate 10, .kill 10]) := by
  have h := (cleanup_order_best_effort_no_raise ⟨true, false, true, false⟩
    "s" sampleState sampleSession rfl).1
  simpa [cleanupStateAfter, sampleState, sampleSession, dictRemove] using h

/-- C7: teardown is idempotent — after any teardown of any id, a second
teardown raises nothing, makes no close/terminate/kill call (its call
log is just the registry pop, which finds nothing), and returns the
state unchanged. -/
theorem cleanup_idempotent (env env2 : CleanupEnv) (sid : String)
    (st : SysState) :
    ∃ st1 tr1, cleanup_session env sid st = .ok (st1, tr1) ∧
      cleanup_session env2 sid st1 = .ok (st1, [.popRegistry sid]) := by
  cases hreg : dictGet sid st.terminal_sessions with
  | none =>
    exact ⟨st, [.popRegistry sid], cleanup_session_absent env sid st hreg,
      cleanup_session_absent env2 sid st hreg⟩
  | some s =>
    refine ⟨cleanupStateAfter env sid s st, cleanupTrace env sid s,
      cleanup_session_eq env sid st s hreg, ?_⟩
    exact cleanup_session_absent env2 sid _
      (cleanupStateAfter_unregistered env sid s st)

/-- C5: a pump iteration whose read returns zero bytes (EOF) forwards no
output and ends the read loop; the code after the loop then removes the
session from the registry, closes the control and subordinate
descriptors and terminates the child (the teardown call log starts with
the registry pop and contains both closes and the terminate), and emits
exactly the session-ended notification — routed to the session id's
room — and no output message. -/
theorem pump_eof_teardown_and_notification (env : CleanupEnv) (sid : String)
    (st : SysState) (s : Session)
    (hreg : dictGet sid st.terminal_sessions = some s) :
    read_output_step .eof sid st = (st, [], false) ∧
    dictGet sid (read_output_finish env sid st).1.terminal_sessions = none ∧
    (read_output_finish env sid st).2.2
      = [.terminalError "Terminal sessiyasi tugadi" (some sid)] ∧
    (read_output_finish env sid st).2.1.head? = some (.popRegistry sid) ∧
    .closeFd s.master_fd ∈ (read_output_finish env sid st).2.1 ∧
    .closeFd s.slave_fd ∈ (read_output_finish env sid st).2.1 ∧
    .terminate s.pid ∈ (read_output_finish env sid st).2.1 := by
  have hfin : read_output_finish env sid st
      = (cleanupStateAfter env sid s st, cleanupTrace env sid s,
         [.terminalError "Terminal sessiyasi tugadi" (some sid)]) := by
    simp [read_output_finish, hreg, cleanup_session_eq env sid st s hreg]
  refine ⟨by simp [read_output_step, hreg], ?_, ?_, ?_, ?_, ?_, ?_⟩ <;>
    simp [hfin, cleanupTrace, cleanupStateAfter_unregistered]

/-- C5 witness: the EOF iteration and the post-loop code evaluated on
the sample session with every OS call succeeding. -/
theorem pump_eof_teardown_and_notification_witness :
    read_output_step .eof "s" sampleState = (sampleState, [], false) ∧
    (read_output_finish ⟨false, false, false, false⟩ "s" sampleState).2.2
      = [.terminalError "Terminal sessiyasi tugadi" (some "s")] := by
  have h := pump_eof_teardown_and_notification ⟨false, false, false, false⟩
    "s" sampleState sampleSession rfl
  exact ⟨h.1, h.2.2.1⟩

/-- C8: an input event for an id absent from the registry is a no-op —
same state (so nothing written to any descriptor) and no exception; the
handler never lets an exception escape on any input; and an OS write
failure on a registered session is swallowed, leaving the state
unchanged with no caller-visible error. -/
theorem input_absent_noop_and_write_error_swallowed (writeFail : Bool)
    (sid : String) (payload : InputPayload) (st : SysState) :
    (dictGet sid st.terminal_sessions = none →
      handle_terminal_input writeFail sid payload st = (st, none)) ∧
    (handle_terminal_input writeFail sid payload st).2 = none ∧
    (∀ s, dictGet sid st.terminal_sessions = some s → writeFail = true →
      handle_terminal_input writeFail sid payload st = (st, none)) := by
  refine ⟨fun h => by simp [handle_terminal_input, h], ?_, ?_⟩
  · cases hreg : dictGet sid st.terminal_sessions with
    | none => simp [handle_terminal_input, hreg]
    | some s =>
      by_cases hd : payload.data.getD "" = "" <;> cases writeFail <;>
        simp [handle_terminal_input, hreg, osWrite, hd]
  · intro s hs hw
    subst hw
    by_cases hd : payload.data.getD "" = "" <;>
      simp [handle_terminal_input, hs, osWrite, hd]

/-- C8 witness: input for the unregistered id `"x"` is a no-op, and
input for the registered id `"s"` with the OS write failing is swallowed
with the state unchanged. -/
theorem input_absent_noop_and_write_error_swallowed_witness :
    handle_terminal_input true "x" ⟨some "hi"⟩ sampleState
      = (sampleState, none) ∧
    handle_terminal_input true "s" ⟨some "ls"⟩ sampleState
      = (sampleState, none) := by
  exact ⟨(input_absent_noop_and_write_error_swallowed true "x" ⟨some "hi"⟩
      sampleState).1 rfl,
    (input_absent_noop_and_write_error_swallowed true "s" ⟨some "ls"⟩
      sampleState).2.2 sampleSession rfl rfl⟩

/-- C9: a resize event on a registered session whose payload lacks the
`rows` field (or the `cols` field, or both) uses the `.get` defaults 24
and 80 for the missing fields and applies the resulting size to the
session's control descriptor — the event is not rejected and the window
size does not stay unchanged. -/
theorem resize_missing_fields_defaults (sid : String) (st : SysState)
    (s : Session) (hreg : dictGet sid st.terminal_sessions = some s) :
    handle_terminal_resize true false sid ⟨none, none⟩ st
      = ({ st with winsize := (dictSet s.master_fd ((24 : Int), (80 : Int))
            st.winsize) }, none) ∧
    (∀ r : Int, 0 ≤ r → r < 65536 →
      handle_terminal_resize true false sid ⟨some (.int r), none⟩ st
        = ({ st with winsize := (dictSet s.master_fd (r, (80 : Int))
              st.winsize) }, none)) ∧
    (∀ c : Int, 0 ≤ c → c < 65536 →
      handle_terminal_resize true false sid ⟨none, some (.int c)⟩ st
        = ({ st with winsize := (dictSet s.master_fd ((24 : Int), c)
              st.winsize) }, none)) := by
  refine ⟨?_, ?_, ?_⟩
  · simp [handle_terminal_resize, hreg, pyInt, set_winsize]
  · intro r hr0 hr1
    have hcond : ¬(r < 0 ∨ (65536 : Int) ≤ r) := by omega
    simp [handle_terminal_resize, hreg, pyInt, set_winsize, hcond]
  · intro c hc0 hc1
    have hcond : ¬(c < 0 ∨ (65536 : Int) ≤ c) := by omega
    simp [handle_terminal_resize, hreg, pyInt, set_winsize, hcond]

/-- C9 witness: a resize with an empty payload on the sample session
applies 24×80 to descriptor 3. -/
theorem resize_missing_fields_defaults_witness :
    handle_terminal_resize true false "s" ⟨none, none⟩ sampleState
      = ({ sampleState with winsize := [(3, ((24 : Int), (80 : Int)))] },
         none) := by
  have h := (resize_missing_fields_defaults "s" sampleState sampleSession
    rfl).1
  simpa [sampleState, sampleSession, dictSet, dictRemove] using h

theorem read_output_finish_absent (env : CleanupEnv) (sid : String)
    (st : SysState) (h : dictGet sid st.terminal_sessions = none) :
    read_output_finish env sid st = (st, [], []) := by
  simp [read_output_finish, h]

/-- C10: the code after the pump's read loop does nothing — no state
change, no cleanup call, no emission — when the session id is no longer
registered; and running it a second time after any first run is always
such a silent no-op, so pump-side cleanup and the end-of-session
notification happen at most once per session. -/
theorem pump_finish_only_when_registered (env env2 : CleanupEnv)
    (sid : String) (st : SysState) :
    (dictGet sid st.terminal_sessions = none →
      read_output_finish env sid st = (st, [], [])) ∧
    read_output_finish env2 sid (read_output_finish env sid st).1
      = ((read_output_finish env sid st).1, [], []) := by
  refine ⟨read_output_finish_absent env sid st, ?_⟩
  have hnone : dictGet sid
      (read_output_finish env sid st).1.terminal_sessions = none := by
    cases hreg : dictGet sid st.terminal_sessions with
    | none => simp [read_output_finish, hreg]
    | some s =>
      simp [read_output_finish, hreg, cleanup_session_eq env sid st s hreg,
        cleanupStateAfter_unregistered]
  exact read_output_finish_absent env2 sid _ hnone

/-- C10 witness: the post-loop code for the unregistered id `"x"` leaves
`sampleState` untouched and emits nothing. -/
theorem pump_finish_only_when_registered_witness :
    read_output_finish ⟨false, false, false, false⟩ "x" sampleState
      = (sampleState, [], []) := by
  exact (pump_finish_only_when_registered ⟨false, false, false, false⟩
    ⟨false, false, false, false⟩ "x" sampleState).1 rfl

end Terminal
